import Mathlib

/-!
Shallow embedding of the `beyond_compare_script_interface` repository
(`beyond_compare_script.py` and `utilities/utilities.py`).

Paths are plain strings; the filesystem is an explicit state (a list of
directories plus an association list of files).  Python exceptions are
modelled with `Except` over an error type mirroring the Python exception
classes that the code raises.  The Python `str.format` routine is embedded for the
fragment the repository uses (named placeholders, `{{`/`}}` escapes).
-/

set_option maxRecDepth 4000

/-- Filesystem paths, kept as plain strings. -/
abbrev FPath := String

/-- Embedding of the `pathlib` slash operator: join a directory and a child name. -/
def pjoin (p : FPath) (child : String) : FPath := p ++ "/" ++ child

/-- Errors raised by the Python code, one constructor per exception class used.
`runtimeError` keeps the command and the captured stderr from which the
Python message starting with `Command failed` is built. -/
inductive PyErr
  | environmentError (msg : String)
  | fileNotFoundError (msg : String)
  | fileExistsError (path : FPath)
  | valueError (msg : String)
  | keyError (key : String)
  | runtimeError (command : List String) (stderr : String)
deriving DecidableEq, Repr

/-- In Python 3, `EnvironmentError` is an alias of `OSError`, and
`FileNotFoundError` / `FileExistsError` are subclasses of `OSError`;
an `except EnvironmentError` catches all three. -/
def PyErr.isEnvironmentError : PyErr → Bool
  | .environmentError _ => true
  | .fileNotFoundError _ => true
  | .fileExistsError _ => true
  | _ => false

/-- A regular file: its content and its `st_mode` permission bits. -/
structure FileInfo where
  content : String
  mode : Nat
deriving DecidableEq, Repr

/-- Filesystem state: existing directories and regular files. -/
structure FS where
  dirs : List FPath
  files : List (FPath × FileInfo)
deriving DecidableEq, Repr

/-- Look up a file by path in an association list. -/
def lookupFile : List (FPath × FileInfo) → FPath → Option FileInfo
  | [], _ => none
  | (q, fi) :: rest, p => if q = p then some fi else lookupFile rest p

/-- Create or replace the file at a path. -/
def setFile : List (FPath × FileInfo) → FPath → FileInfo → List (FPath × FileInfo)
  | [], p, fi => [(p, fi)]
  | (q, g) :: rest, p, fi =>
      if q = p then (p, fi) :: rest else (q, g) :: setFile rest p fi

/-- Delete the file at a path. -/
def removeFile : List (FPath × FileInfo) → FPath → List (FPath × FileInfo)
  | [], _ => []
  | (q, g) :: rest, p =>
      if q = p then removeFile rest p else (q, g) :: removeFile rest p

/-- Embedding of `Path.exists()` for the script files the code checks. -/
def FS.fileExists (fs : FS) (p : FPath) : Bool := (lookupFile fs.files p).isSome

/-- Content of the file at a path, if it exists. -/
def FS.fileContent (fs : FS) (p : FPath) : Option String :=
  (lookupFile fs.files p).map FileInfo.content

/-- Embedding of `Path.stat().st_mode`: `none` models `stat` raising
`FileNotFoundError` for a missing file. -/
def FS.statMode (fs : FS) (p : FPath) : Option Nat :=
  (lookupFile fs.files p).map FileInfo.mode

/-- Whether a directory exists. -/
def FS.dirExists (fs : FS) (p : FPath) : Bool := fs.dirs.contains p

/-- Embedding of `Path.mkdir(parents=True, exist_ok=exist_ok)`: with
`exist_ok := false` a pre-existing directory raises `FileExistsError`;
with `exist_ok := true` it is tolerated silently. -/
def FS.mkdir (fs : FS) (p : FPath) (exist_ok : Bool) : Except PyErr FS :=
  if fs.dirs.contains p then
    if exist_ok then .ok fs else .error (.fileExistsError p)
  else .ok { fs with dirs := p :: fs.dirs }

/-- Embedding of opening a path in write mode: creates the file, or truncates it to empty. -/
def FS.openTruncate (fs : FS) (p : FPath) : FS :=
  { fs with files := setFile fs.files p ⟨"", 0o644⟩ }

/-- Write a string to the (open) file at a path. -/
def FS.writeFile (fs : FS) (p : FPath) (s : String) : FS :=
  { fs with files := setFile fs.files p ⟨s, 0o644⟩ }

/-- Embedding of `Path.unlink()`. -/
def FS.unlink (fs : FS) (p : FPath) : FS :=
  { fs with files := removeFile fs.files p }

/-- Errors of Python `str.format`: `KeyError` for a missing named key,
`ValueError` for malformed brace structure. -/
inductive FmtErr
  | keyError (key : String)
  | valueError (msg : String)
deriving DecidableEq, Repr

/-- Map a formatting error to the Python exception it raises. -/
def FmtErr.toPyErr : FmtErr → PyErr
  | .keyError k => .keyError k
  | .valueError m => .valueError m

/-- Look up a named keyword argument, key given as its character list. -/
def lookupKey : List (String × String) → List Char → Option String
  | [], _ => none
  | (key, v) :: rest, k => if key.toList = k then some v else lookupKey rest k

/-- Scanner state for the embedding of Python `str.format`: plain text, just
after an opening or a closing brace, or inside a replacement-field name. -/
inductive FmtMode
  | text
  | sawOpen
  | sawClose
  | field (acc : List Char)
deriving DecidableEq, Repr

/-- Core of Python `str.format(**kwargs)` over the character list of the
template, one character per step.  `\x7b\x7b` and `\x7d\x7d` are escapes; a missing key
raises `KeyError` (an empty field name, auto-numbering in Python, is modelled
as a missing key as well); an unmatched or nested brace raises `ValueError`. -/
def fmtAux (kw : List (String × String)) : FmtMode → List Char → Except FmtErr (List Char)
  | .text, [] => .ok []
  | .text, c :: rest =>
      if c = '{' then fmtAux kw .sawOpen rest
      else if c = '}' then fmtAux kw .sawClose rest
      else (fmtAux kw .text rest).map (fun t => c :: t)
  | .sawOpen, [] => .error (.valueError "Single brace encountered in format string")
  | .sawOpen, c :: rest =>
      if c = '{' then (fmtAux kw .text rest).map (fun t => '{' :: t)
      else if c = '}' then
        match lookupKey kw [] with
        | none => .error (.keyError "")
        | some v => (fmtAux kw .text rest).map (fun t => v.toList ++ t)
      else fmtAux kw (.field [c]) rest
  | .sawClose, [] => .error (.valueError "Single brace encountered in format string")
  | .sawClose, c :: rest =>
      if c = '}' then (fmtAux kw .text rest).map (fun t => '}' :: t)
      else .error (.valueError "Single brace encountered in format string")
  | .field _, [] => .error (.valueError "Single brace encountered in format string")
  | .field acc, c :: rest =>
      if c = '}' then
        match lookupKey kw acc with
        | none => .error (.keyError acc.asString)
        | some v => (fmtAux kw .text rest).map (fun t => v.toList ++ t)
      else if c = '{' then .error (.valueError "unexpected brace in field name")
      else fmtAux kw (.field (acc ++ [c])) rest

/-- Embedding of `template.format(**kwargs)` for the named-placeholder
fragment the repository uses. -/
def pyFormat (s : String) (kw : List (String × String)) : Except FmtErr String :=
  (fmtAux kw .text s.toList).map List.asString

/-- Decidable equality for `Except`, used to evaluate results on concrete
inputs. -/
instance {ε α : Type} [DecidableEq ε] [DecidableEq α] : DecidableEq (Except ε α) := by
  intro a b
  cases a with
  | error e =>
    cases b with
    | error f => exact decidable_of_iff (e = f) (by simp)
    | ok y => exact .isFalse (by simp)
  | ok x =>
    cases b with
    | error f => exact .isFalse (by simp)
    | ok y => exact decidable_of_iff (x = y) (by simp)

/-- A segment of a template: literal text or a named placeholder. -/
inductive Seg
  | lit (s : String)
  | ph (name : String)
deriving DecidableEq, Repr

/-- A character that is neither an opening nor a closing brace. -/
def plainChar (c : Char) : Bool := c ≠ '{' && c ≠ '}'

/-- Well-formedness of a segment: literals are brace-free, placeholder
names are brace-free and non-empty. -/
def segWF : Seg → Bool
  | .lit s => s.toList.all plainChar
  | .ph n => n.toList.all plainChar && !n.isEmpty

/-- Well-formedness of a segment list. -/
def segsWF (segs : List Seg) : Bool := segs.all segWF

/-- The template string denoted by a segment list: placeholders are
written `\x7bname\x7d`. -/
def segsToTemplate : List Seg → String
  | [] => ""
  | .lit s :: rest => s ++ segsToTemplate rest
  | .ph n :: rest => "\x7b" ++ n ++ "\x7d" ++ segsToTemplate rest

/-- The specified meaning of substitution: each placeholder replaced by its
value, literals kept; `none` when a referenced name is absent. -/
def renderSegs (kw : List (String × String)) : List Seg → Option String
  | [] => some ""
  | .lit s :: rest => (renderSegs kw rest).map (fun t => s ++ t)
  | .ph n :: rest =>
      match lookupKey kw n.toList with
      | none => none
      | some v => (renderSegs kw rest).map (fun t => v ++ t)

/-- State of a `BeyondCompareScript` instance: the constructor arguments plus
the three mutable fields initialised in `__init__`.  `executable_path` is an
`Option` because the constructor explicitly tests `is None`. -/
structure BeyondCompareScript where
  executable_path : Option FPath
  script_data : String
  data_directory : FPath
  subprocess_command : Option (List String)
  current_run_directory : Option FPath
  script_path : Option FPath
deriving DecidableEq, Repr

/-- Embedding of `BeyondCompareScript.__init__`: creates the data directory
(parents, exist_ok), then checks the executable.  A `None` path or a clear
execute-permission mask raises `EnvironmentError`; `stat` on a missing file
raises `FileNotFoundError`.  Returns the filesystem after the side effects
together with the created instance or the raised error. -/
def BeyondCompareScript.init (executable_path : Option FPath) (script_data : String)
    (data_directory : FPath) (fs : FS) : FS × Except PyErr BeyondCompareScript :=
  match fs.mkdir data_directory true with
  | .error e => (fs, .error e)
  | .ok fs1 =>
    match executable_path with
    | none =>
        (fs1, .error (.environmentError
          "Beyond Compare executable not found at `None`."))
    | some p =>
      match fs1.statMode p with
      | none => (fs1, .error (.fileNotFoundError p))
      | some m =>
        if m &&& 0o111 = 0 then
          (fs1, .error (.environmentError
            ("Beyond Compare executable not found at `" ++ p ++ "`.")))
        else
          (fs1, .ok
            { executable_path := executable_path
              script_data := script_data
              data_directory := data_directory
              subprocess_command := none
              current_run_directory := none
              script_path := none })

/-- Wall-clock instant, as `datetime.now()` provides it. -/
structure DateTime where
  year : Nat
  month : Nat
  day : Nat
  hour : Nat
  minute : Nat
  second : Nat
deriving DecidableEq, Repr

/-- Zero-pad a number to two digits, as `strftime` does for `%m` ... `%S`. -/
def pad2 (n : Nat) : String := if n < 10 then "0" ++ toString n else toString n

/-- Zero-pad a number to four digits, as `strftime` does for `%Y`. -/
def pad4 (n : Nat) : String :=
  if n < 10 then "000" ++ toString n
  else if n < 100 then "00" ++ toString n
  else if n < 1000 then "0" ++ toString n
  else toString n

/-- Embedding of `datetime.strftime` with the format `%Y%m%d-%H%M%S`. -/
def strftimeYmdHMS (d : DateTime) : String :=
  pad4 d.year ++ pad2 d.month ++ pad2 d.day ++ "-" ++
    pad2 d.hour ++ pad2 d.minute ++ pad2 d.second

/-- Embedding of `prepare_current_run_directory`: derives the timestamped
directory under the data directory, records it as the pending run directory,
creates it with `parents=True, exist_ok=True`, and returns it. -/
def prepare_current_run_directory (self : BeyondCompareScript) (fs : FS)
    (now : DateTime) : Except PyErr (BeyondCompareScript × FS × FPath) :=
  let dir := pjoin self.data_directory (strftimeYmdHMS now)
  let self1 := { self with current_run_directory := some dir }
  match fs.mkdir dir true with
  | .error e => .error e
  | .ok fs1 => .ok (self1, fs1, dir)

/-- Fixed name of the script file inside a run directory. -/
def scriptFileName : String := "beyond_compare_script.txt"

/-- Embedding of `write_new_script(**kwargs)`.  With no pending run directory
it raises `ValueError`.  Otherwise it assigns the script path, opens the file
in write mode (creating it empty), formats the template, and on success writes
the result and clears the pending run directory.  An error carries the state
as already mutated when the exception is raised. -/
def write_new_script (self : BeyondCompareScript) (fs : FS)
    (kwargs : List (String × String)) :
    Except (PyErr × BeyondCompareScript × FS) (BeyondCompareScript × FS) :=
  match self.current_run_directory with
  | none => .error (.valueError "Current run directory not set. Set it up first.", self, fs)
  | some dir =>
    let sp := pjoin dir scriptFileName
    let self1 := { self with script_path := some sp }
    let fs1 := fs.openTruncate sp
    match pyFormat self.script_data kwargs with
    | .error e => .error (e.toPyErr, self1, fs1)
    | .ok content =>
      let fs2 := fs1.writeFile sp content
      .ok ({ self1 with current_run_directory := none }, fs2)

/-- Render an `Option FPath` the way a Python f-string renders it. -/
def pyStrOfOptPath : Option FPath → String
  | none => "None"
  | some p => p

/-- Embedding of `prepare_subprocess_command`: raises `FileNotFoundError`
when the script path is unset or the file is missing, otherwise stores and
returns the three-element argument list. -/
def prepare_subprocess_command (self : BeyondCompareScript) (fs : FS) :
    Except PyErr (BeyondCompareScript × List String) :=
  match self.script_path with
  | none => .error (.fileNotFoundError "Script file not found.")
  | some sp =>
    if fs.fileExists sp then
      let command := [pyStrOfOptPath self.executable_path, "@" ++ sp, "/silent"]
      .ok ({ self with subprocess_command := some command }, command)
    else .error (.fileNotFoundError "Script file not found.")

/-- Outcome of the launched child process: exit status and captured streams. -/
structure ProcResult where
  returncode : Int
  stdout : String
  stderr : String
deriving DecidableEq, Repr

/-- Embedding of `utilities.run_command`: a non-zero exit status raises
`RuntimeError` carrying the command and the captured stderr; on success the
two streams are printed when requested.  Returns the printed lines. -/
def run_command (command : List String) (print_output : Bool)
    (proc : ProcResult) : Except PyErr (List String) :=
  if proc.returncode ≠ 0 then .error (.runtimeError command proc.stderr)
  else if print_output then .ok [proc.stdout, proc.stderr]
  else .ok []

/-- An error-level log record, as `logger.error` emits in `run_script`:
it keeps the script path and the parts the `RuntimeError` message is built
from, the command and the captured stderr. -/
inductive LogEntry
  | errorRunning (script_path : Option FPath) (command : List String) (stderr : String)
deriving DecidableEq, Repr

/-- Embedding of `run_script`: prepares the subprocess command (errors
propagate), runs it, and catches exactly `RuntimeError`, logging it.  On
completion returns the state, the error-level log records, and the printed
lines. -/
def run_script (self : BeyondCompareScript) (fs : FS) (proc : ProcResult)
    (print_output : Bool) :
    Except PyErr (BeyondCompareScript × List LogEntry × List String) :=
  match prepare_subprocess_command self fs with
  | .error e => .error e
  | .ok (self1, cmd) =>
    match run_command cmd print_output proc with
    | .error (.runtimeError c stderr) =>
        .ok (self1, [.errorRunning self1.script_path c stderr], [])
    | .error e => .error e
    | .ok printed => .ok (self1, [], printed)

/-- Embedding of `remove_script`: deletes the file when the path is set and
the file exists, leaving the path field unchanged; otherwise raises
`FileNotFoundError`. -/
def remove_script (self : BeyondCompareScript) (fs : FS) :
    Except PyErr (BeyondCompareScript × FS) :=
  match self.script_path with
  | none => .error (.fileNotFoundError "Script file not found.")
  | some sp =>
    if fs.fileExists sp then .ok (self, fs.unlink sp)
    else .error (.fileNotFoundError "Script file not found.")

/-! ## Helper lemmas -/

/-- Looking up the path just written returns the new file. -/
theorem lookupFile_setFile_self (l : List (FPath × FileInfo)) (p : FPath) (fi : FileInfo) :
    lookupFile (setFile l p fi) p = some fi := by
  induction l with
  | nil => simp [setFile, lookupFile]
  | cons q l ih =>
    obtain ⟨qp, qfi⟩ := q
    by_cases h : qp = p <;> simp [setFile, lookupFile, h, ih]

/-- Looking up the path just removed returns nothing. -/
theorem lookupFile_removeFile_self (l : List (FPath × FileInfo)) (p : FPath) :
    lookupFile (removeFile l p) p = none := by
  induction l with
  | nil => simp [removeFile, lookupFile]
  | cons q l ih =>
    obtain ⟨qp, qfi⟩ := q
    by_cases h : qp = p <;> simp [removeFile, lookupFile, h, ih]

/-- With `exist_ok=True`, `mkdir` always succeeds, leaves the files alone,
ensures the directory exists, and is the identity when it already did. -/
theorem mkdir_true_ok (fs : FS) (p : FPath) :
    ∃ fs1, fs.mkdir p true = .ok fs1 ∧ fs1.files = fs.files ∧
      fs1.dirs.contains p = true ∧ (fs.dirs.contains p = true → fs1 = fs) := by
  by_cases h : fs.dirs.contains p
  · refine ⟨fs, ?_, rfl, h, fun _ => rfl⟩
    unfold FS.mkdir
    rw [if_pos h]
    rfl
  · refine ⟨{ fs with dirs := p :: fs.dirs }, ?_, rfl, ?_, fun hc => absurd hc h⟩
    · unfold FS.mkdir
      rw [if_neg h]
    · simp

/-- Scanning a brace-free run of characters copies it to the output. -/
theorem fmtAux_text_plain (kw : List (String × String)) (l rest : List Char)
    (h : l.all plainChar = true) :
    fmtAux kw .text (l ++ rest) = (fmtAux kw .text rest).map (fun t => l ++ t) := by
  induction l with
  | nil =>
    simp only [List.nil_append]
    cases he : fmtAux kw .text rest <;> simp [he, Except.map]
  | cons c l ih =>
    simp only [List.all_cons, Bool.and_eq_true] at h
    obtain ⟨hc, hl⟩ := h
    simp only [plainChar, Bool.and_eq_true, decide_eq_true_eq] at hc
    simp only [List.cons_append, fmtAux, if_neg hc.1, if_neg hc.2]
    cases he : fmtAux kw .text rest <;> simp [he, ih hl, Except.map]

/-- Scanning a brace-free run inside a field name accumulates it. -/
theorem fmtAux_field_plain (kw : List (String × String)) (n rest acc : List Char)
    (h : n.all plainChar = true) :
    fmtAux kw (.field acc) (n ++ rest) = fmtAux kw (.field (acc ++ n)) rest := by
  induction n generalizing acc with
  | nil => simp
  | cons c n ih =>
    simp only [List.all_cons, Bool.and_eq_true] at h
    obtain ⟨hc, hn⟩ := h
    simp only [plainChar, Bool.and_eq_true, decide_eq_true_eq] at hc
    simp only [List.cons_append, fmtAux, if_neg hc.1, if_neg hc.2, List.append_eq]
    rw [ih (acc ++ [c]) hn]
    simp

/-- A non-empty string has a non-empty character list. -/
theorem toList_ne_nil_of_not_isEmpty (a : String) (h : a.isEmpty = false) :
    a.toList ≠ [] := by
  intro hc
  rw [show a = "" from by cases a with | mk d => simp [String.toList] at hc; simp [hc]] at h
  simp [String.isEmpty] at h

/-- On a well-formed template whose placeholders are all covered, the format
scanner produces exactly the segment-by-segment substitution. -/
theorem fmtAux_segsToTemplate_ok (kw : List (String × String)) (segs : List Seg)
    (out : String) (hwf : segsWF segs = true) (hout : renderSegs kw segs = some out) :
    fmtAux kw .text (segsToTemplate segs).toList = .ok out.toList := by
  induction segs generalizing out with
  | nil =>
    simp [renderSegs] at hout
    subst hout
    simp [segsToTemplate, fmtAux]
  | cons seg rest ih =>
    simp only [segsWF, List.all_cons, Bool.and_eq_true] at hwf
    obtain ⟨hseg, hrest⟩ := hwf
    cases seg with
    | lit s =>
      simp only [renderSegs, Option.map_eq_some'] at hout
      obtain ⟨t, ht, hts⟩ := hout
      simp only [segsToTemplate]
      rw [show (s ++ segsToTemplate rest).toList = s.toList ++ (segsToTemplate rest).toList from rfl]
      rw [fmtAux_text_plain kw _ _ (by simpa [segWF] using hseg)]
      rw [ih t hrest ht]
      simp [Except.map, ← hts]
    | ph n =>
      simp only [segWF, Bool.and_eq_true, Bool.not_eq_true'] at hseg
      obtain ⟨hplain, hne⟩ := hseg
      simp only [renderSegs] at hout
      cases hk : lookupKey kw n.toList with
      | none => rw [hk] at hout; simp at hout
      | some v =>
        rw [hk] at hout
        simp only [Option.map_eq_some'] at hout
        obtain ⟨t, ht, hts⟩ := hout
        simp only [segsToTemplate]
        rw [show ("\x7b" ++ n ++ "\x7d" ++ segsToTemplate rest).toList
              = '{' :: (n.toList ++ ('}' :: (segsToTemplate rest).toList)) from by simp]
        rw [show fmtAux kw .text ('{' :: (n.toList ++ ('}' :: (segsToTemplate rest).toList)))
              = fmtAux kw .sawOpen (n.toList ++ ('}' :: (segsToTemplate rest).toList)) from by
            simp [fmtAux]]
        cases hn : n.toList with
        | nil => exact absurd hn (toList_ne_nil_of_not_isEmpty n hne)
        | cons d ds =>
          rw [hn] at hplain
          simp only [List.all_cons, Bool.and_eq_true] at hplain
          obtain ⟨hd, hds⟩ := hplain
          simp only [plainChar, Bool.and_eq_true, decide_eq_true_eq] at hd
          simp only [List.cons_append, fmtAux, if_neg hd.1, if_neg hd.2, List.append_eq]
          rw [fmtAux_field_plain kw ds _ [d] hds]
          rw [show ([d] ++ ds : List Char) = d :: ds from rfl, ← hn]
          simp only [fmtAux, if_pos rfl, hk]
          rw [ih t hrest ht]
          simp [Except.map, ← hts]

/-- On a well-formed template with some placeholder uncovered, the format
scanner raises a `KeyError`. -/
theorem fmtAux_segsToTemplate_err (kw : List (String × String)) (segs : List Seg)
    (hwf : segsWF segs = true) (hout : renderSegs kw segs = none) :
    ∃ k, fmtAux kw .text (segsToTemplate segs).toList = .error (.keyError k) := by
  induction segs with
  | nil => simp [renderSegs] at hout
  | cons seg rest ih =>
    simp only [segsWF, List.all_cons, Bool.and_eq_true] at hwf
    obtain ⟨hseg, hrest⟩ := hwf
    cases seg with
    | lit s =>
      simp only [renderSegs, Option.map_eq_none'] at hout
      obtain ⟨k, hk⟩ := ih hrest hout
      refine ⟨k, ?_⟩
      simp only [segsToTemplate]
      rw [show (s ++ segsToTemplate rest).toList = s.toList ++ (segsToTemplate rest).toList from rfl]
      rw [fmtAux_text_plain kw _ _ (by simpa [segWF] using hseg)]
      have hk2 : fmtAux kw FmtMode.text (segsToTemplate rest).data
          = Except.error (FmtErr.keyError k) := hk
      simp [hk2, Except.map]
    | ph n =>
      simp only [segWF, Bool.and_eq_true, Bool.not_eq_true'] at hseg
      obtain ⟨hplain, hne⟩ := hseg
      simp only [renderSegs] at hout
      have step :
          fmtAux kw .text (segsToTemplate (Seg.ph n :: rest)).toList =
            (match lookupKey kw n.toList with
              | none => .error (.keyError n.toList.asString)
              | some v => (fmtAux kw .text (segsToTemplate rest).toList).map
                  (fun t => v.toList ++ t)) := by
        simp only [segsToTemplate]
        rw [show ("\x7b" ++ n ++ "\x7d" ++ segsToTemplate rest).toList
              = '{' :: (n.toList ++ ('}' :: (segsToTemplate rest).toList)) from by simp]
        rw [show fmtAux kw .text ('{' :: (n.toList ++ ('}' :: (segsToTemplate rest).toList)))
              = fmtAux kw .sawOpen (n.toList ++ ('}' :: (segsToTemplate rest).toList)) from by
            simp [fmtAux]]
        cases hn : n.toList with
        | nil => exact absurd hn (toList_ne_nil_of_not_isEmpty n hne)
        | cons d ds =>
          rw [hn] at hplain
          simp only [List.all_cons, Bool.and_eq_true] at hplain
          obtain ⟨hd, hds⟩ := hplain
          simp only [plainChar, Bool.and_eq_true, decide_eq_true_eq] at hd
          simp only [List.cons_append, fmtAux, if_neg hd.1, if_neg hd.2, List.append_eq]
          rw [fmtAux_field_plain kw ds _ [d] hds]
          rw [show ([d] ++ ds : List Char) = d :: ds from rfl, ← hn]
          simp [fmtAux]
      cases hk : lookupKey kw n.toList with
      | none =>
        refine ⟨n.toList.asString, ?_⟩
        rw [step, hk]
      | some v =>
        rw [hk] at hout
        simp only [Option.map_eq_none'] at hout
        obtain ⟨k, hkk⟩ := ih hrest hout
        refine ⟨k, ?_⟩
        rw [step, hk, hkk]
        rfl

/-- Appending extra key-value pairs does not change a successful lookup. -/
theorem lookupKey_append_of_some (kw extra : List (String × String)) (k : List Char)
    (v : String) (h : lookupKey kw k = some v) : lookupKey (kw ++ extra) k = some v := by
  induction kw with
  | nil => simp [lookupKey] at h
  | cons p kw ih =>
    obtain ⟨key, val⟩ := p
    by_cases hkey : key.toList = k
    · simp only [lookupKey, if_pos hkey] at h ⊢
      exact h
    · simp only [List.cons_append, lookupKey, if_neg hkey] at h ⊢
      exact ih h

/-- Extra substitution keys are ignored: a successful rendering is unchanged
when further pairs are appended to the mapping. -/
theorem renderSegs_append_extra (kw extra : List (String × String)) (segs : List Seg)
    (out : String) (h : renderSegs kw segs = some out) :
    renderSegs (kw ++ extra) segs = some out := by
  induction segs generalizing out with
  | nil => simpa [renderSegs] using h
  | cons seg rest ih =>
    cases seg with
    | lit s =>
      simp only [renderSegs, Option.map_eq_some'] at h ⊢
      obtain ⟨t, ht, hts⟩ := h
      exact ⟨t, ih t ht, hts⟩
    | ph n =>
      simp only [renderSegs] at h ⊢
      cases hk : lookupKey kw n.toList with
      | none => rw [hk] at h; simp at h
      | some v =>
        rw [hk] at h
        rw [lookupKey_append_of_some kw extra n.toList v hk]
        simp only [Option.map_eq_some'] at h ⊢
        obtain ⟨t, ht, hts⟩ := h
        exact ⟨t, ih t ht, hts⟩

/-- Formatting a well-formed template with all placeholders covered yields
exactly the segment-by-segment substitution, byte for byte. -/
theorem pyFormat_segs_ok (kw : List (String × String)) (segs : List Seg) (out : String)
    (hwf : segsWF segs = true) (hout : renderSegs kw segs = some out) :
    pyFormat (segsToTemplate segs) kw = .ok out := by
  unfold pyFormat
  rw [fmtAux_segsToTemplate_ok kw segs out hwf hout]
  show Except.ok out.toList.asString = Except.ok out
  rw [show out.toList.asString = out from rfl]

/-- Formatting a well-formed template with a missing placeholder raises a
`KeyError`. -/
theorem pyFormat_segs_err (kw : List (String × String)) (segs : List Seg)
    (hwf : segsWF segs = true) (hout : renderSegs kw segs = none) :
    ∃ k, pyFormat (segsToTemplate segs) kw = .error (.keyError k) := by
  obtain ⟨k, hk⟩ := fmtAux_segsToTemplate_err kw segs hwf hout
  exact ⟨k, by unfold pyFormat; rw [hk]; rfl⟩

/-! ## Claim theorems -/

/-- C4: `prepare_subprocess_command` returns exactly
`[executable_path, "@" ++ script_path, "/silent"]` when the script path is set
and the file exists, and raises `FileNotFoundError` when the path is unset or
the file is missing; no other flags are ever included. -/
theorem prepare_subprocess_command_spec (self : BeyondCompareScript) (fs : FS) :
    (∀ sp, self.script_path = some sp → fs.fileExists sp = true →
      prepare_subprocess_command self fs =
        .ok ({ self with
                 subprocess_command := some [pyStrOfOptPath self.executable_path,
                   "@" ++ sp, "/silent"] },
             [pyStrOfOptPath self.executable_path, "@" ++ sp, "/silent"])) ∧
    (self.script_path = none →
      prepare_subprocess_command self fs =
        .error (.fileNotFoundError "Script file not found.")) ∧
    (∀ sp, self.script_path = some sp → fs.fileExists sp = false →
      prepare_subprocess_command self fs =
        .error (.fileNotFoundError "Script file not found.")) := by
  refine ⟨?_, ?_, ?_⟩
  · intro sp hsp hex
    simp [prepare_subprocess_command, hsp, hex]
  · intro h
    simp [prepare_subprocess_command, h]
  · intro sp hsp hex
    simp [prepare_subprocess_command, hsp, hex]

/-- Witness for C4 at a concrete state: a set and existing script path gives
the exact three-element command, and an unset path the not-found error. -/
theorem prepare_subprocess_command_spec_witness :
    prepare_subprocess_command
        ⟨some "/bc/BCompare", "tmpl", "/data", none, none, some "/data/r/s.txt"⟩
        ⟨["/data"], [("/data/r/s.txt", ⟨"", 420⟩)]⟩ =
      .ok (⟨some "/bc/BCompare", "tmpl", "/data",
              some ["/bc/BCompare", "@" ++ "/data/r/s.txt", "/silent"],
              none, some "/data/r/s.txt"⟩,
           ["/bc/BCompare", "@" ++ "/data/r/s.txt", "/silent"]) ∧
    prepare_subprocess_command
        ⟨some "/bc/BCompare", "tmpl", "/data", none, none, none⟩ ⟨["/data"], []⟩ =
      .error (.fileNotFoundError "Script file not found.") :=
  ⟨(prepare_subprocess_command_spec _ _).1 "/data/r/s.txt" rfl (by decide),
   (prepare_subprocess_command_spec _ _).2.1 rfl⟩

/-- C7: `remove_script` deletes the script file when the path is set and the
file exists, leaves the path field set, so that a repeated call fails the
existence check with `FileNotFoundError`; it also raises `FileNotFoundError`
when the path is unset or the file is already absent. -/
theorem remove_script_spec (self : BeyondCompareScript) (fs : FS) :
    (∀ sp, self.script_path = some sp → fs.fileExists sp = true →
      remove_script self fs = .ok (self, fs.unlink sp) ∧
      self.script_path = some sp ∧
      (fs.unlink sp).fileExists sp = false ∧
      remove_script self (fs.unlink sp) =
        .error (.fileNotFoundError "Script file not found.")) ∧
    (self.script_path = none →
      remove_script self fs = .error (.fileNotFoundError "Script file not found.")) ∧
    (∀ sp, self.script_path = some sp → fs.fileExists sp = false →
      remove_script self fs = .error (.fileNotFoundError "Script file not found.")) := by
  refine ⟨?_, ?_, ?_⟩
  · intro sp hsp hex
    have hun : (fs.unlink sp).fileExists sp = false := by
      simp [FS.unlink, FS.fileExists, lookupFile_removeFile_self]
    exact ⟨by simp [remove_script, hsp, hex], hsp, hun,
           by simp [remove_script, hsp, hun]⟩
  · intro h
    simp [remove_script, h]
  · intro sp hsp hex
    simp [remove_script, hsp, hex]

/-- Witness for C7 at a concrete state: the file is deleted, the path stays
set, and the repeated call raises the not-found error. -/
theorem remove_script_spec_witness :
    remove_script ⟨some "/bc", "t", "/d", none, none, some "/d/r/s.txt"⟩
        ⟨["/d"], [("/d/r/s.txt", ⟨"x", 420⟩)]⟩ =
      .ok (⟨some "/bc", "t", "/d", none, none, some "/d/r/s.txt"⟩,
           FS.unlink ⟨["/d"], [("/d/r/s.txt", ⟨"x", 420⟩)]⟩ "/d/r/s.txt") ∧
    (FS.unlink ⟨["/d"], [("/d/r/s.txt", ⟨"x", 420⟩)]⟩ "/d/r/s.txt").fileExists "/d/r/s.txt" = false ∧
    remove_script ⟨some "/bc", "t", "/d", none, none, some "/d/r/s.txt"⟩
        (FS.unlink ⟨["/d"], [("/d/r/s.txt", ⟨"x", 420⟩)]⟩ "/d/r/s.txt") =
      .error (.fileNotFoundError "Script file not found.") := by
  obtain ⟨h1, _, h3, h4⟩ :=
    (remove_script_spec ⟨some "/bc", "t", "/d", none, none, some "/d/r/s.txt"⟩
        ⟨["/d"], [("/d/r/s.txt", ⟨"x", 420⟩)]⟩).1 "/d/r/s.txt" rfl (by decide)
  exact ⟨h1, h3, h4⟩

/-- C2: with the pending run directory unset, `write_new_script` raises the
sequencing `ValueError`; and a successful `write_new_script` clears the slot,
so a second call without a new `prepare_current_run_directory` always raises
that same error. -/
theorem write_new_script_sequencing (self self2 : BeyondCompareScript)
    (fs fs2 fs3 : FS) (kw kw2 : List (String × String)) :
    (self.current_run_directory = none →
      write_new_script self fs kw =
        .error (.valueError "Current run directory not set. Set it up first.", self, fs)) ∧
    (write_new_script self fs kw = .ok (self2, fs2) →
      write_new_script self2 fs3 kw2 =
        .error (.valueError "Current run directory not set. Set it up first.", self2, fs3)) := by
  constructor
  · intro h
    simp [write_new_script, h]
  · intro h
    have hc : self2.current_run_directory = none := by
      unfold write_new_script at h
      cases hcrd : self.current_run_directory with
      | none => rw [hcrd] at h; simp at h
      | some dir =>
        rw [hcrd] at h
        simp only at h
        cases hf : pyFormat self.script_data kw with
        | error e => rw [hf] at h; simp at h
        | ok content =>
          rw [hf] at h
          simp only [Except.ok.injEq, Prod.mk.injEq] at h
          rw [← h.1]
    simp [write_new_script, hc]

/-- Witness for C2 at concrete states: a fresh instance (slot unset) fails
with the sequencing error, and after one successful write the second write
fails with it too. -/
theorem write_new_script_sequencing_witness :
    write_new_script ⟨some "/bc", "hi", "/d", none, none, none⟩ ⟨["/d"], []⟩ [] =
      .error (.valueError "Current run directory not set. Set it up first.",
        ⟨some "/bc", "hi", "/d", none, none, none⟩, ⟨["/d"], []⟩) ∧
    write_new_script
        (⟨some "/bc", "hi", "/d", none, none, some (pjoin "/d/r" scriptFileName)⟩ :
          BeyondCompareScript)
        ⟨["/d", "/d/r"], [(pjoin "/d/r" scriptFileName, ⟨"hi", 420⟩)]⟩ [] =
      .error (.valueError "Current run directory not set. Set it up first.",
        ⟨some "/bc", "hi", "/d", none, none, some (pjoin "/d/r" scriptFileName)⟩,
        ⟨["/d", "/d/r"], [(pjoin "/d/r" scriptFileName, ⟨"hi", 420⟩)]⟩) := by
  constructor
  · exact (write_new_script_sequencing ⟨some "/bc", "hi", "/d", none, none, none⟩
      ⟨some "/bc", "hi", "/d", none, none, none⟩ ⟨["/d"], []⟩ ⟨["/d"], []⟩
      ⟨["/d"], []⟩ [] []).1 rfl
  · exact (write_new_script_sequencing ⟨some "/bc", "hi", "/d", none, some "/d/r", none⟩
      ⟨some "/bc", "hi", "/d", none, none, some (pjoin "/d/r" scriptFileName)⟩
      ⟨["/d", "/d/r"], []⟩
      ⟨["/d", "/d/r"], [(pjoin "/d/r" scriptFileName, ⟨"hi", 420⟩)]⟩
      ⟨["/d", "/d/r"], [(pjoin "/d/r" scriptFileName, ⟨"hi", 420⟩)]⟩ [] []).2 (by decide)

/-- C5: constructing with an executable path that is missing, or that exists
with no executable permission bit, always fails with an error of the
`OSError`/`EnvironmentError` family, and no instance is created. -/
theorem init_env_error (ep : FPath) (sd : String) (dd : FPath) (fs : FS)
    (h : fs.statMode ep = none ∨ ∃ m, fs.statMode ep = some m ∧ m &&& 0o111 = 0) :
    ∃ e, (BeyondCompareScript.init (some ep) sd dd fs).2 = .error e ∧
      e.isEnvironmentError = true := by
  obtain ⟨fs1, hmk, hfiles, _, _⟩ := mkdir_true_ok fs dd
  have hsm : fs1.statMode ep = fs.statMode ep := by
    simp [FS.statMode, hfiles]
  unfold BeyondCompareScript.init
  rw [hmk]
  dsimp only
  rcases h with hmiss | ⟨m, hm, hbits⟩
  · rw [show fs1.statMode ep = none from hsm.trans hmiss]
    exact ⟨.fileNotFoundError ep, rfl, rfl⟩
  · rw [show fs1.statMode ep = some m from hsm.trans hm]
    refine ⟨.environmentError ("Beyond Compare executable not found at `" ++ ep ++ "`."), ?_, rfl⟩
    simp [hbits]

/-- Witness for C5 at concrete states: a missing executable and one with mode
0o644 both yield an error in the `EnvironmentError` family. -/
theorem init_env_error_witness :
    (∃ e, (BeyondCompareScript.init (some "/bc") "t" "/d" ⟨[], []⟩).2 = .error e ∧
      e.isEnvironmentError = true) ∧
    (∃ e, (BeyondCompareScript.init (some "/bc") "t" "/d"
        ⟨[], [("/bc", ⟨"", 0o644⟩)]⟩).2 = .error e ∧
      e.isEnvironmentError = true) :=
  ⟨init_env_error "/bc" "t" "/d" ⟨[], []⟩ (.inl rfl),
   init_env_error "/bc" "t" "/d" ⟨[], [("/bc", ⟨"", 0o644⟩)]⟩
     (.inr ⟨0o644, rfl, by decide⟩)⟩

/-- C9: when construction fails the executable check, the data directory has
nevertheless already been created: the `mkdir` side effect precedes the check,
so the failed constructor still mutates the filesystem. -/
theorem init_failure_creates_data_directory (ep : FPath) (sd : String) (dd : FPath) (fs : FS)
    (h : fs.statMode ep = none ∨ ∃ m, fs.statMode ep = some m ∧ m &&& 0o111 = 0) :
    (BeyondCompareScript.init (some ep) sd dd fs).1.dirExists dd = true ∧
    ∃ e, (BeyondCompareScript.init (some ep) sd dd fs).2 = .error e := by
  obtain ⟨fs1, hmk, hfiles, hcont, _⟩ := mkdir_true_ok fs dd
  have hsm : fs1.statMode ep = fs.statMode ep := by
    simp [FS.statMode, hfiles]
  unfold BeyondCompareScript.init
  rw [hmk]
  dsimp only
  rcases h with hmiss | ⟨m, hm, hbits⟩
  · rw [show fs1.statMode ep = none from hsm.trans hmiss]
    exact ⟨hcont, ⟨.fileNotFoundError ep, rfl⟩⟩
  · rw [show fs1.statMode ep = some m from hsm.trans hm]
    refine ⟨?_, ?_⟩
    · simp [hbits, FS.dirExists] at hcont ⊢
      exact hcont
    · refine ⟨.environmentError ("Beyond Compare executable not found at `" ++ ep ++ "`."), ?_⟩
      simp [hbits]

/-- Witness for C9 at a concrete state: with no executable file on an empty
filesystem, the failed constructor has still created the data directory. -/
theorem init_failure_creates_data_directory_witness :
    (BeyondCompareScript.init (some "/bc") "t" "/d" ⟨[], []⟩).1.dirExists "/d" = true ∧
    ∃ e, (BeyondCompareScript.init (some "/bc") "t" "/d" ⟨[], []⟩).2 = .error e :=
  init_failure_creates_data_directory "/bc" "t" "/d" ⟨[], []⟩ (.inl rfl)

/-- C6: `prepare_current_run_directory` always succeeds, returning the path
joined from the data directory and the wall-clock timestamp formatted
`YYYYMMDD-HHMMSS`; the directory exists afterwards, is recorded as the pending
run directory, and a pre-existing directory of the same name is reused
silently, leaving the filesystem unchanged. -/
theorem prepare_run_directory_spec (self : BeyondCompareScript) (fs : FS) (now : DateTime) :
    ∃ fs1,
      prepare_current_run_directory self fs now =
        .ok ({ self with
                 current_run_directory := some (pjoin self.data_directory (strftimeYmdHMS now)) },
             fs1, pjoin self.data_directory (strftimeYmdHMS now)) ∧
      fs1.dirExists (pjoin self.data_directory (strftimeYmdHMS now)) = true ∧
      (fs.dirExists (pjoin self.data_directory (strftimeYmdHMS now)) = true → fs1 = fs) := by
  obtain ⟨fs1, hmk, _, hcont, hid⟩ :=
    mkdir_true_ok fs (pjoin self.data_directory (strftimeYmdHMS now))
  refine ⟨fs1, ?_, hcont, hid⟩
  unfold prepare_current_run_directory
  dsimp only
  rw [hmk]

/-- Witness for C6 at a concrete state where the timestamped directory
already exists: the call still succeeds, records the slot, and reuses the
directory without change. -/
theorem prepare_run_directory_spec_witness :
    ∃ fs1,
      prepare_current_run_directory ⟨some "/bc", "t", "/d", none, none, none⟩
          ⟨["/d", "/d/20231105-093042"], []⟩ ⟨2023, 11, 5, 9, 30, 42⟩ =
        .ok ({ (⟨some "/bc", "t", "/d", none, none, none⟩ : BeyondCompareScript) with
                 current_run_directory := some (pjoin "/d" (strftimeYmdHMS ⟨2023, 11, 5, 9, 30, 42⟩)) },
             fs1, pjoin "/d" (strftimeYmdHMS ⟨2023, 11, 5, 9, 30, 42⟩)) ∧
      fs1.dirExists (pjoin "/d" (strftimeYmdHMS ⟨2023, 11, 5, 9, 30, 42⟩)) = true ∧
      (FS.dirExists ⟨["/d", "/d/20231105-093042"], []⟩
          (pjoin "/d" (strftimeYmdHMS ⟨2023, 11, 5, 9, 30, 42⟩)) = true →
        fs1 = ⟨["/d", "/d/20231105-093042"], []⟩) :=
  prepare_run_directory_spec ⟨some "/bc", "t", "/d", none, none, none⟩
    ⟨["/d", "/d/20231105-093042"], []⟩ ⟨2023, 11, 5, 9, 30, 42⟩

/-- C1: when the script path is set and the file exists, a non-zero exit
status of the child process leaves `run_script` completing normally: the
result is `ok`, the `RuntimeError` is swallowed, and the single error-level
log record carries the command and the captured stderr. -/
theorem run_script_swallows_failure (self : BeyondCompareScript) (fs : FS)
    (proc : ProcResult) (po : Bool) (sp : FPath)
    (hsp : self.script_path = some sp) (hex : fs.fileExists sp = true)
    (hrc : proc.returncode ≠ 0) :
    run_script self fs proc po =
      .ok ({ self with
               subprocess_command := some [pyStrOfOptPath self.executable_path,
                 "@" ++ sp, "/silent"] },
           [LogEntry.errorRunning (some sp)
              [pyStrOfOptPath self.executable_path, "@" ++ sp, "/silent"] proc.stderr],
           []) := by
  simp [run_script, prepare_subprocess_command, hsp, hex, run_command, hrc]

/-- Witness for C1 at a concrete state: exit code 1 with stderr text gives a
normal completion whose log record holds the command and the stderr text. -/
theorem run_script_swallows_failure_witness :
    run_script ⟨some "/bc", "t", "/d", none, none, some "/d/r/s.txt"⟩
        ⟨["/d"], [("/d/r/s.txt", ⟨"x", 420⟩)]⟩ ⟨1, "", "boom"⟩ true =
      .ok ({ (⟨some "/bc", "t", "/d", none, none, some "/d/r/s.txt"⟩ : BeyondCompareScript) with
               subprocess_command := some [pyStrOfOptPath (some "/bc"),
                 "@" ++ "/d/r/s.txt", "/silent"] },
           [LogEntry.errorRunning (some "/d/r/s.txt")
              [pyStrOfOptPath (some "/bc"), "@" ++ "/d/r/s.txt", "/silent"] "boom"],
           []) :=
  run_script_swallows_failure ⟨some "/bc", "t", "/d", none, none, some "/d/r/s.txt"⟩
    ⟨["/d"], [("/d/r/s.txt", ⟨"x", 420⟩)]⟩ ⟨1, "", "boom"⟩ true "/d/r/s.txt"
    rfl (by decide) (by decide)

/-- C10: when `write_new_script` fails on a missing placeholder key, the
failure is not atomic: the pending run directory slot is still set, yet the
script path has already been reassigned and an empty file has been created at
it before the `KeyError` is raised. -/
theorem write_new_script_partial_effects (self : BeyondCompareScript) (fs : FS)
    (dir : FPath) (kw : List (String × String)) (k : String)
    (hdir : self.current_run_directory = some dir)
    (hfmt : pyFormat self.script_data kw = .error (.keyError k)) :
    write_new_script self fs kw =
      .error (.keyError k,
        { self with script_path := some (pjoin dir scriptFileName) },
        fs.openTruncate (pjoin dir scriptFileName)) ∧
    ({ self with script_path := some (pjoin dir scriptFileName) } :
      BeyondCompareScript).current_run_directory = some dir ∧
    (fs.openTruncate (pjoin dir scriptFileName)).fileContent (pjoin dir scriptFileName)
      = some "" := by
  refine ⟨?_, by simp [hdir], ?_⟩
  · simp [write_new_script, hdir, hfmt, FmtErr.toPyErr]
  · simp [FS.openTruncate, FS.fileContent, lookupFile_setFile_self]

/-- Witness for C10 at a concrete state: template with a placeholder absent
from the substitutions leaves the slot set, the path reassigned, and an empty
file on disk. -/
theorem write_new_script_partial_effects_witness :
    write_new_script ⟨some "/bc", "{missing}", "/d", none, some "/d/r", none⟩
        ⟨["/d", "/d/r"], []⟩ [] =
      .error (.keyError "missing",
        { (⟨some "/bc", "{missing}", "/d", none, some "/d/r", none⟩ : BeyondCompareScript) with
            script_path := some (pjoin "/d/r" scriptFileName) },
        FS.openTruncate ⟨["/d", "/d/r"], []⟩ (pjoin "/d/r" scriptFileName)) ∧
    ({ (⟨some "/bc", "{missing}", "/d", none, some "/d/r", none⟩ : BeyondCompareScript) with
        script_path := some (pjoin "/d/r" scriptFileName) } :
      BeyondCompareScript).current_run_directory = some "/d/r" ∧
    (FS.openTruncate ⟨["/d", "/d/r"], []⟩ (pjoin "/d/r" scriptFileName)).fileContent
        (pjoin "/d/r" scriptFileName) = some "" :=
  write_new_script_partial_effects ⟨some "/bc", "{missing}", "/d", none, some "/d/r", none⟩
    ⟨["/d", "/d/r"], []⟩ "/d/r" [] "missing" rfl (by decide)

/-- C3: with a prepared run directory, a well-formed template, and a
substitution mapping covering all its placeholders, `write_new_script`
succeeds and the file at the fixed-named path inside the run directory holds
exactly the template with every placeholder replaced by its value. -/
theorem write_new_script_content (self : BeyondCompareScript) (fs : FS) (dir : FPath)
    (segs : List Seg) (kw : List (String × String)) (out : String)
    (hdir : self.current_run_directory = some dir)
    (htmpl : self.script_data = segsToTemplate segs)
    (hwf : segsWF segs = true)
    (hout : renderSegs kw segs = some out) :
    ∃ self1 fs1, write_new_script self fs kw = .ok (self1, fs1) ∧
      fs1.fileContent (pjoin dir scriptFileName) = some out := by
  have hfmt : pyFormat self.script_data kw = .ok out := by
    rw [htmpl]
    exact pyFormat_segs_ok kw segs out hwf hout
  refine ⟨{ self with script_path := some (pjoin dir scriptFileName), current_run_directory := none },
          (fs.openTruncate (pjoin dir scriptFileName)).writeFile
            (pjoin dir scriptFileName) out, ?_, ?_⟩
  · simp [write_new_script, hdir, hfmt]
  · simp [FS.writeFile, FS.fileContent, lookupFile_setFile_self]

/-- Witness for C3: the template `Hello \x7bname\x7d` with `name = World` writes
exactly `Hello World`. -/
theorem write_new_script_content_witness :
    ∃ self1 fs1,
      write_new_script ⟨some "/bc", "Hello {name}", "/d", none, some "/d/r", none⟩
          ⟨["/d", "/d/r"], []⟩ [("name", "World")] = .ok (self1, fs1) ∧
      fs1.fileContent (pjoin "/d/r" scriptFileName) = some "Hello World" :=
  write_new_script_content ⟨some "/bc", "Hello {name}", "/d", none, some "/d/r", none⟩
    ⟨["/d", "/d/r"], []⟩ "/d/r" [Seg.lit "Hello ", Seg.ph "name"] [("name", "World")]
    "Hello World" rfl rfl (by decide) (by decide)

/-- C8: with a prepared run directory and a well-formed template, a
substitution mapping missing a referenced placeholder makes
`write_new_script` fail with a `KeyError`, while extra pairs beyond the
covering mapping are ignored: the write succeeds with the same content. -/
theorem write_new_script_placeholder_mismatch (self : BeyondCompareScript) (fs : FS)
    (dir : FPath) (segs : List Seg) (kw extra : List (String × String)) (out : String)
    (hdir : self.current_run_directory = some dir)
    (htmpl : self.script_data = segsToTemplate segs)
    (hwf : segsWF segs = true) :
    (renderSegs kw segs = none →
      ∃ k self1 fs1, write_new_script self fs kw = .error (.keyError k, self1, fs1)) ∧
    (renderSegs kw segs = some out →
      ∃ self1 fs1, write_new_script self fs (kw ++ extra) = .ok (self1, fs1) ∧
        fs1.fileContent (pjoin dir scriptFileName) = some out) := by
  constructor
  · intro hnone
    obtain ⟨k, hk⟩ := pyFormat_segs_err kw segs hwf hnone
    have hfmt : pyFormat self.script_data kw = .error (.keyError k) := by
      rw [htmpl]; exact hk
    exact ⟨k, { self with script_path := some (pjoin dir scriptFileName) },
           fs.openTruncate (pjoin dir scriptFileName),
           by simp [write_new_script, hdir, hfmt, FmtErr.toPyErr]⟩
  · intro hsome
    have hout2 : renderSegs (kw ++ extra) segs = some out :=
      renderSegs_append_extra kw extra segs out hsome
    have hfmt : pyFormat self.script_data (kw ++ extra) = .ok out := by
      rw [htmpl]
      exact pyFormat_segs_ok (kw ++ extra) segs out hwf hout2
    refine ⟨{ self with script_path := some (pjoin dir scriptFileName), current_run_directory := none },
            (fs.openTruncate (pjoin dir scriptFileName)).writeFile
              (pjoin dir scriptFileName) out, ?_, ?_⟩
    · simp [write_new_script, hdir, hfmt]
    · simp [FS.writeFile, FS.fileContent, lookupFile_setFile_self]

/-- Witness for C8: `Hello \x7bname\x7d` with an empty mapping fails with a
`KeyError`, and with `name = World` plus an unused extra key it writes
`Hello World`, the same content as without the extra. -/
theorem write_new_script_placeholder_mismatch_witness :
    (∃ k self1 fs1,
      write_new_script ⟨some "/bc", "Hello {name}", "/d", none, some "/d/r", none⟩
          ⟨["/d", "/d/r"], []⟩ [] = .error (.keyError k, self1, fs1)) ∧
    (∃ self1 fs1,
      write_new_script ⟨some "/bc", "Hello {name}", "/d", none, some "/d/r", none⟩
          ⟨["/d", "/d/r"], []⟩ ([("name", "World")] ++ [("unused", "zzz")]) =
        .ok (self1, fs1) ∧
      fs1.fileContent (pjoin "/d/r" scriptFileName) = some "Hello World") := by
  constructor
  · exact (write_new_script_placeholder_mismatch
      ⟨some "/bc", "Hello {name}", "/d", none, some "/d/r", none⟩
      ⟨["/d", "/d/r"], []⟩ "/d/r" [Seg.lit "Hello ", Seg.ph "name"] [] [("unused", "zzz")]
      "Hello World" rfl rfl (by decide)).1 (by decide)
  · exact (write_new_script_placeholder_mismatch
      ⟨some "/bc", "Hello {name}", "/d", none, some "/d/r", none⟩
      ⟨["/d", "/d/r"], []⟩ "/d/r" [Seg.lit "Hello ", Seg.ph "name"] [("name", "World")]
      [("unused", "zzz")] "Hello World" rfl rfl (by decide)).2 (by decide)
